import Mathlib

/-!
Verification development for the smart-llm-gateway routing and dispatch
engine.  The JavaScript sources are shallowly embedded: query strings are
`List Char`, JavaScript numbers are modelled as rationals (`ℚ`), the
`Map`-backed mutable service state is threaded explicitly, and the adapter
fleet is an oracle mapping the index of each call to its outcome.
-/



namespace Gateway

/-! ## Definitions: shallow embedding of the gateway sources -/

/-- Character class of the JavaScript regex `\s` (whitespace). -/
def isJsWs (c : Char) : Bool :=
  (0x09 ≤ c.val && c.val ≤ 0x0d) || c = ' ' || c.val = 0xa0 || c.val = 0x1680 ||
  (0x2000 ≤ c.val && c.val ≤ 0x200a) || c.val = 0x2028 || c.val = 0x2029 ||
  c.val = 0x202f || c.val = 0x205f || c.val = 0x3000 || c.val = 0xfeff

/-- Character class of the regex `[.!?]` used for sentence splitting. -/
def isSentencePunct (c : Char) : Bool :=
  c = '.' || c = '!' || c = '?'

/-- Push a character onto the first chunk of a chunk list. -/
def consHead (c : Char) : List (List Char) → List (List Char)
  | [] => [[c]]
  | w :: ws => (c :: w) :: ws

/-- JavaScript `str.split(regex)` where the regex matches one-or-more
characters satisfying `p` (such as `/\s+/` or `/[.!?]+/`): separators are
maximal runs of `p`-characters, and a run touching the start or the end of
the string contributes an empty chunk there, exactly as in JavaScript
(`" a".split(/\s+/)` is `["", "a"]`, `"".split(/\s+/)` is `[""]`). -/
def jsSplitOn (p : Char → Bool) : List Char → List (List Char)
  | [] => [[]]
  | [c] => if p c then [[], []] else [[c]]
  | c :: c2 :: cs =>
    if p c then
      if p c2 then jsSplitOn p (c2 :: cs)
      else [] :: jsSplitOn p (c2 :: cs)
    else consHead c (jsSplitOn p (c2 :: cs))

/-- JavaScript `str.trim()`: strip leading and trailing `\s` characters. -/
def jsTrim (cs : List Char) : List Char :=
  ((cs.dropWhile isJsWs).reverse.dropWhile isJsWs).reverse

/-- Embeds `const words = query.split(/\s+/)`. -/
def queryWords (q : List Char) : List (List Char) :=
  jsSplitOn isJsWs q

/-- Embeds `const wordCount = words.length`. -/
def wordCount (q : List Char) : ℕ :=
  (queryWords q).length

/-- Embeds `words.reduce((sum, word) => sum + word.length, 0)`. -/
def totalWordLength (q : List Char) : ℕ :=
  ((queryWords q).map List.length).sum

/-- Embeds `const avgWordLength = words.reduce(...) / wordCount`. -/
def avgWordLength (q : List Char) : ℚ :=
  (totalWordLength q : ℚ) / (wordCount q : ℚ)

/-- Embeds `Math.min(wordCount / 100, 1) * 0.5 + Math.min(avgWordLength / 10, 1) * 0.5`. -/
def vocabularyComplexity (q : List Char) : ℚ :=
  min ((wordCount q : ℚ) / 100) 1 * (1/2) + min (avgWordLength q / 10) 1 * (1/2)

/-- Embeds `query.split(/[.!?]+/).filter(s => s.trim().length > 0)`. -/
def querySentences (q : List Char) : List (List Char) :=
  (jsSplitOn isSentencePunct q).filter (fun s => !(jsTrim s).isEmpty)

/-- Embeds `const sentenceCount = Math.max(sentences.length, 1)`. -/
def sentenceCount (q : List Char) : ℕ :=
  max (querySentences q).length 1

/-- Embeds `const avgSentenceLength = wordCount / sentenceCount`. -/
def avgSentenceLength (q : List Char) : ℚ :=
  (wordCount q : ℚ) / (sentenceCount q : ℚ)

/-- Embeds `const grammarComplexity = Math.min(avgSentenceLength / 20, 1)`. -/
def grammarComplexity (q : List Char) : ℚ :=
  min (avgSentenceLength q / 20) 1

/-- Embeds `const complexityScore = (vocabularyComplexity * 0.6 + grammarComplexity * 0.4)`. -/
def complexityScore (q : List Char) : ℚ :=
  vocabularyComplexity q * (6/10) + grammarComplexity q * (4/10)

/-- Factor tag pushed when `vocabularyComplexity > 0.6` (the source's literal
string; the specification names it `high_vocabulary_complexity`). -/
def highVocabularyTag : String := "高词汇复杂度"

/-- Factor tag pushed when `grammarComplexity > 0.6` (the source's literal
string; the specification names it `complex_grammar`). -/
def complexGrammarTag : String := "复杂语法结构"

/-- Factor tag pushed when `wordCount > 100` (the source's literal string;
the specification names it `long_query`). -/
def longQueryTag : String := "查询长度较长"

/-- Embeds the three conditional `complexityFactors.push(...)` statements,
in program order. -/
def complexityFactors (q : List Char) : List String :=
  (if vocabularyComplexity q > 6/10 then [highVocabularyTag] else []) ++
  (if grammarComplexity q > 6/10 then [complexGrammarTag] else []) ++
  (if wordCount q > 100 then [longQueryTag] else [])

/-- Result record `{ complexityScore, complexityFactors }` of
`evaluateQueryComplexity` in `modelGatewayService`. -/
structure ComplexityResult where
  complexityScore : ℚ
  complexityFactors : List String
  deriving Repr, DecidableEq

/-- Embeds `evaluateQueryComplexity(query, metadata)` (the metadata argument
is never read by the source function). -/
def evaluateQueryComplexity (q : List Char) : ComplexityResult :=
  ⟨complexityScore q, complexityFactors q⟩

/-- The whitespace-separated tokens of a query: the non-empty chunks that
the run-split on whitespace produces. -/
def wsTokens (q : List Char) : List (List Char) :=
  (queryWords q).filter (fun w => !w.isEmpty)

/-- Complexity score as the specification words it, with `W` the number of
whitespace-separated tokens and `avg_word_len` their mean length. -/
def specTokenScore (q : List Char) : ℚ :=
  let W : ℚ := ((wsTokens q).length : ℚ)
  let avg : ℚ := (((wsTokens q).map List.length).sum : ℚ) / W
  let S : ℚ := (sentenceCount q : ℚ)
  (6/10) * ((1/2) * min (W/100) 1 + (1/2) * min (avg/10) 1) +
    (4/10) * min ((W/S)/20) 1

/-- A query of one hundred single-letter tokens, each followed by a
space: it has exactly 100 whitespace-separated tokens, but its trailing
space makes the source's `query.split(/\s+/)` array 101 entries long. -/
def hundredTokenQuery : List Char :=
  (List.replicate 100 ['a', ' ']).flatten

/-- JavaScript `x || d` on an optional number: `undefined` and `0` are
falsy and fall back to the default. -/
def jsOrQ (x : Option ℚ) (d : ℚ) : ℚ :=
  match x with
  | none => d
  | some v => if v = 0 then d else v

/-- JavaScript `x || d` on an optional count. -/
def jsOrNat (x : Option ℕ) (d : ℕ) : ℕ :=
  match x with
  | none => d
  | some v => if v = 0 then d else v

/-- Static provider descriptor, the shape of the `config.modelProviders`
entries read by `modelRouterService` (absent JavaScript properties are
`none`). -/
structure ProviderConfig where
  status : String
  supportedModelTypes : Option (List String)
  maxConcurrentQueries : Option ℕ
  baseCostPerQuery : Option ℚ
  maxCostPerQuery : Option ℚ
  costEfficiency : Option ℚ
  deriving Repr, DecidableEq

/-- Entry of the `modelStats` map: cumulative running means plus the call
count. -/
structure ModelStats where
  avgResponseTime : ℚ
  successRate : ℚ
  costEfficiency : ℚ
  totalCalls : ℕ
  deriving Repr, DecidableEq

/-- Mutable state of the `ModelRouterService` singleton: the provider
registry, the two routing thresholds of `config.routingStrategy`, and the
two maps `activeConnections` (with `Map.get(name) || 0` folded into a
total function) and `modelStats`. -/
structure RouterState where
  lowComplexityThreshold : ℚ
  highComplexityThreshold : ℚ
  modelProviders : List (String × ProviderConfig)
  activeConnections : String → ℕ
  modelStats : String → Option ModelStats

/-- Recognized request-metadata fields consumed by the router: `budget`
(present-and-truthy metadata parsed by `parseFloat`; `none` stands for an
absent or falsy value, which the source turns into `Infinity`) and the
`queryLength` derived field. -/
structure Metadata where
  budget : Option ℚ := none
  queryLength : Option ℚ := none

/-- A `{ name, config }` pair as produced by `getAvailableProviders`. -/
structure ProviderEntry where
  name : String
  config : ProviderConfig
  deriving Repr, DecidableEq

/-- Error kinds of the `Errors` factory in `src/utils/errors.js`.  Modelled
from the spec: that file is absent from the sources, and §7 of the
specification fixes the kinds raised by the router and dispatcher
(`INVALID_REQUEST`, `MODEL_UNAVAILABLE`, `COMPLEXITY_EVALUATION_FAILED`,
`COST_LIMIT_EXCEEDED`); error message strings are not modelled. -/
inductive GatewayErrorCode where
  | invalidRequest
  | modelUnavailable
  | complexityEvaluationFailed
  | costLimitExceeded
  deriving Repr, DecidableEq

/-- The `if/else` ladder on the two thresholds in
`selectModelByComplexity` (lines 35-41 of the source). -/
def selectModelTypeFor (lo hi score : ℚ) : String :=
  if score < lo then "local"
  else if score < hi then "hybrid"
  else "remote"

/-- Embeds the `supportsModelType` test of the candidate filter: a config
without `supportedModelTypes` supports every type. -/
def supportsModelType (cfg : ProviderConfig) (t : String) : Bool :=
  match cfg.supportedModelTypes with
  | some l => l.contains t
  | none => true

/-- Embeds `getAvailableProviders(modelType, metadata)`: keep providers
that support the type, are not offline, and are below their concurrency
cap (`maxConcurrentQueries || 10`); the metadata argument is unused by the
source body. -/
def getAvailableProviders (s : RouterState) (t : String) (_m : Metadata) : List ProviderEntry :=
  (s.modelProviders.filter (fun nc =>
    supportsModelType nc.2 t && (nc.2.status != "offline") &&
      decide (s.activeConnections nc.1 < jsOrNat nc.2.maxConcurrentQueries 10))).map
    (fun nc => ⟨nc.1, nc.2⟩)

/-- Default runtime stats used by `selectBestProvider` for a provider with
no history (`avgResponseTime: 500, successRate: 0.95, costEfficiency: 0.8`;
the absent `totalCalls` is irrelevant to the score and set to `0`). -/
def defaultRuntimeStats : ModelStats :=
  ⟨500, 95/100, 8/10, 0⟩

/-- The weighted provider score of `selectBestProvider`:
`loadFactor·0.4 + costFactor·0.3 + performanceFactor·0.3`. -/
def providerScore (s : RouterState) (pr : ProviderEntry) : ℚ :=
  let stats := (s.modelStats pr.name).getD defaultRuntimeStats
  let currentLoad : ℚ := (s.activeConnections pr.name : ℚ)
  let maxLoad : ℚ := (jsOrNat pr.config.maxConcurrentQueries 10 : ℚ)
  let loadFactor := 1 - currentLoad / maxLoad
  let costFactor := jsOrQ pr.config.costEfficiency (1/2)
  let performanceFactor := stats.successRate * (1000 / (stats.avgResponseTime + 100))
  loadFactor * (4/10) + costFactor * (3/10) + performanceFactor * (3/10)

/-- Embeds `selectBestProvider`: a singleton list is returned directly;
otherwise the source scores every candidate, stably sorts a copy by
descending score and returns the head, which is the first candidate
attaining the maximal score — computed here by a left fold that replaces
the current best only on a strictly greater score. -/
def selectBestProvider (s : RouterState) : List ProviderEntry → Option ProviderEntry
  | [] => none
  | [p] => some p
  | p :: q :: ps =>
    some (((q :: ps).foldl
      (fun best pr => if providerScore s pr > best.2 then (pr, providerScore s pr) else best)
      (p, providerScore s p)).1)

/-- Embeds `estimateCost(modelConfig, complexityScore, metadata)`:
`min(baseCost·(1+score)·(1+queryLength/1000), maxCost)` with defaults
`baseCostPerQuery || 0.001`, `metadata.queryLength || 0` and
`maxCostPerQuery || 0.1`. -/
def estimateCost (cfg : ProviderConfig) (score : ℚ) (m : Metadata) : ℚ :=
  let baseCost := jsOrQ cfg.baseCostPerQuery (1/1000)
  let complexityFactor := 1 + score
  let queryLength := m.queryLength.getD 0
  let lengthFactor := 1 + queryLength / 1000
  min (baseCost * complexityFactor * lengthFactor) (jsOrQ cfg.maxCostPerQuery (1/10))

/-- Routing decision record.  `selectModelByComplexity` fills
`estimatedCost`; the backup object built by `getBackupModel` carries no
`estimatedCost` property (hence the `Option`) and sets `isBackup`;
`applyCostControlStrategy` sets `costControlled` on a downgrade. -/
structure RoutingDecision where
  provider : String
  modelType : String
  modelConfig : ProviderConfig
  estimatedCost : Option ℚ := none
  costControlled : Bool := false
  isBackup : Bool := false
  deriving Repr, DecidableEq

/-- Embeds `selectModelByComplexity(complexityScore, complexityFactors,
metadata)`; the factor list only feeds logging and is not a parameter
here.  An empty candidate set raises `MODEL_UNAVAILABLE`. -/
def selectModelByComplexity (s : RouterState) (score : ℚ) (m : Metadata) :
    Except GatewayErrorCode RoutingDecision :=
  match getAvailableProviders s (selectModelTypeFor s.lowComplexityThreshold s.highComplexityThreshold score) m with
  | [] => .error .modelUnavailable
  | p :: ps =>
    match selectBestProvider s (p :: ps) with
    | none => .error .modelUnavailable
    | some sel =>
      .ok { provider := sel.name
            modelType := selectModelTypeFor s.lowComplexityThreshold s.highComplexityThreshold score
            modelConfig := sel.config
            estimatedCost := some (estimateCost sel.config score m) }

/-- Embeds `recordModelUseStart(providerName)`: unconditionally increment
the provider's active-connection count. -/
def recordModelUseStart (s : RouterState) (name : String) : RouterState :=
  let currentCount := s.activeConnections name
  { s with activeConnections := fun n => if n = name then currentCount + 1 else s.activeConnections n }

/-- The `stats` sample passed to `recordModelUseEnd`. -/
structure UseSample where
  responseTime : ℚ
  success : Bool
  costEfficiency : ℚ

/-- Embeds `recordModelUseEnd(providerName, stats)`: decrement the
active-connection count (`get(name) || 1`, floored at `0` by `Math.max`)
and fold the sample into the cumulative means. -/
def recordModelUseEnd (s : RouterState) (name : String) (stats : Option UseSample) : RouterState :=
  let currentCount := jsOrNat (some (s.activeConnections name)) 1
  let s1 : RouterState :=
    { s with activeConnections := fun n => if n = name then currentCount - 1 else s.activeConnections n }
  match stats with
  | none => s1
  | some st =>
    let cur := (s.modelStats name).getD ⟨0, 1, 1/2, 0⟩
    let totalCalls := cur.totalCalls + 1
    let newStats : ModelStats :=
      { avgResponseTime := (cur.avgResponseTime * cur.totalCalls + st.responseTime) / totalCalls
        successRate := (cur.successRate * cur.totalCalls + (if st.success then 1 else 0)) / totalCalls
        costEfficiency := (cur.costEfficiency * cur.totalCalls + st.costEfficiency) / totalCalls
        totalCalls := totalCalls }
    { s1 with modelStats := fun n => if n = name then some newStats else s.modelStats n }

/-- The `fallbackTypes` object `{ remote: 'hybrid', hybrid: 'local' }`. -/
def fallbackTypeOf (t : String) : Option String :=
  if t = "remote" then some "hybrid"
  else if t = "hybrid" then some "local"
  else none

/-- Rank of a model type along the downgrade chain, used as the
termination measure of `getBackupModel`. -/
def typeRank (t : String) : ℕ :=
  if t = "remote" then 2 else if t = "hybrid" then 1 else 0

/-- Embeds `getBackupModel(primaryProvider, modelType, metadata)`: best
same-type candidate other than the primary, else recurse one step down
the `remote → hybrid → local` chain, else `null`. -/
def getBackupModel (s : RouterState) (primary : String) (t : String) (m : Metadata) :
    Option RoutingDecision :=
  match (getAvailableProviders s t m).filter (fun pr => pr.name != primary) with
  | [] =>
    match ht : fallbackTypeOf t with
    | some ft => getBackupModel s primary ft m
    | none => none
  | p :: ps =>
    match selectBestProvider s (p :: ps) with
    | none => none
    | some b =>
      some { provider := b.name, modelType := t, modelConfig := b.config, isBackup := true }
termination_by typeRank t
decreasing_by
  simp only [fallbackTypeOf] at ht
  by_cases h1 : t = "remote"
  · rw [if_pos h1] at ht
    have hft : ft = "hybrid" := (Option.some.inj ht).symm
    subst h1
    subst hft
    decide
  · rw [if_neg h1] at ht
    by_cases h2 : t = "hybrid"
    · rw [if_pos h2] at ht
      have hft : ft = "local" := (Option.some.inj ht).symm
      subst h2
      subst hft
      decide
    · rw [if_neg h2] at ht
      exact absurd ht (by simp)

/-- Embeds `applyCostControlStrategy(modelInfo, metadata)`:
`budget = metadata.budget ? parseFloat(metadata.budget) : Infinity`; when
the estimated cost exceeds the budget, try exactly one downgrade step and
accept it only when its re-estimated cost fits, otherwise raise
`COST_LIMIT_EXCEEDED`.  A comparison against `Infinity` (absent budget) or
with an `undefined` estimated cost is `false`, so the decision is returned
unchanged. -/
def applyCostControlStrategy (s : RouterState) (info : RoutingDecision) (m : Metadata) :
    Except GatewayErrorCode RoutingDecision :=
  match m.budget, info.estimatedCost with
  | some budget, some est =>
    if est > budget then
      match fallbackTypeOf info.modelType with
      | some ft =>
        match getAvailableProviders s ft m with
        | [] => .error .costLimitExceeded
        | p :: ps =>
          match selectBestProvider s (p :: ps) with
          | none => .error .costLimitExceeded
          | some cheaper =>
            let cheaperCost := estimateCost cheaper.config (1/2) m
            if cheaperCost ≤ budget then
              .ok { provider := cheaper.name, modelType := ft, modelConfig := cheaper.config,
                    estimatedCost := some cheaperCost, costControlled := true }
            else .error .costLimitExceeded
      | none => .error .costLimitExceeded
    else .ok info
  | _, _ => .ok info

/-- Provider configuration of the two-slot tracker example. -/
def cfgTwoSlot : ProviderConfig :=
  ⟨"online", some ["hybrid"], some 2, some (1/100), some (1/10), some (8/10)⟩

/-- A router state with a single provider `"p"` capped at 2 concurrent
queries and currently at `inflight = 1 = max_concurrent − 1`. -/
def twoSlotState : RouterState :=
  ⟨3/10, 7/10, [("p", cfgTwoSlot)], fun n => if n = "p" then 1 else 0, fun _ => none⟩

/-- Configuration with no `supportedModelTypes` and no
`maxConcurrentQueries`, as used by the C10 witness. -/
def cfgUntyped : ProviderConfig :=
  ⟨"online", none, none, some (1/100), some (1/10), some (8/10)⟩

/-- Router state holding the single untyped provider `"u"` with three
active connections. -/
def untypedState : RouterState :=
  ⟨3/10, 7/10, [("u", cfgUntyped)], fun n => if n = "u" then 3 else 0, fun _ => none⟩

/-- Provider configuration for the C8 witness. -/
def cfgAmple : ProviderConfig :=
  ⟨"online", some ["remote"], some 10, some (1/100), some (1/10), some (8/10)⟩

/-- Router state holding the single remote provider `"r"`. -/
def ampleState : RouterState :=
  ⟨3/10, 7/10, [("r", cfgAmple)], fun _ => 0, fun _ => none⟩

/-- Metadata with a budget of 1, far above the `0.1` cost cap. -/
def ampleMeta : Metadata :=
  { budget := some 1, queryLength := some 0 }

/-- The decision the router produces on `ampleState` at score `0.9`. -/
def ampleDecision : RoutingDecision :=
  { provider := "r", modelType := "remote", modelConfig := cfgAmple,
    estimatedCost := some (19/1000) }

/-- Remote provider of the downgrade-chain example. -/
def cfgChainRemote : ProviderConfig :=
  ⟨"online", some ["remote"], some 10, some (1/20), some (1/5), some (8/10)⟩

/-- Hybrid provider of the downgrade-chain example. -/
def cfgChainHybrid : ProviderConfig :=
  ⟨"online", some ["hybrid"], some 10, some (3/100), some (3/20), some (8/10)⟩

/-- Local provider of the downgrade-chain example; its costs fit the
budget of `1/500`. -/
def cfgChainLocal : ProviderConfig :=
  ⟨"online", some ["local"], some 10, some (1/2000), some (1/100), some (8/10)⟩

/-- Registry with one provider of each type. -/
def costChainState : RouterState :=
  ⟨3/10, 7/10,
    [("remote1", cfgChainRemote), ("hybrid1", cfgChainHybrid), ("local1", cfgChainLocal)],
    fun _ => 0, fun _ => none⟩

/-- Metadata with the tight budget `0.002`. -/
def costChainMeta : Metadata :=
  { budget := some (1/500), queryLength := some 0 }

/-- The routing decision produced at score `0.9` on `costChainState`. -/
def costChainDecision : RoutingDecision :=
  { provider := "remote1", modelType := "remote", modelConfig := cfgChainRemote,
    estimatedCost := some (19/200) }

/-- Outcome of one adapter invocation: the resolved
`{ text, cost, ... }` object, or a thrown error. -/
inductive CallOutcome where
  | success (text : String) (cost : Option ℚ)
  | failure
  deriving Repr, DecidableEq

/-- Error with which a dispatch replies through the gRPC callback:
a typed `GatewayError` (mapped to its status), the `TypeError` raised by
the `finalModelInfo = backupModel` assignment to a `const` binding on the
fallback path, or a non-gateway adapter error; the latter two reach the
outer catch and are mapped to an internal error reply. -/
inductive DispatchError where
  | gateway (code : GatewayErrorCode)
  | constAssignment
  | adapterError
  deriving Repr, DecidableEq

/-- The fields of a successful reply relevant to the claims:
`response` (the model's text) and `model_used`. -/
structure OkReply where
  response : String
  modelUsed : String
  deriving Repr, DecidableEq

/-- Observable outcome of one dispatch: the reply, the number of adapter
invocations, the sequences of `recordModelUseStart` and
`recordModelUseEnd` provider arguments, and the final router state. -/
structure DispatchResult where
  reply : Except DispatchError OkReply
  adapterCalls : ℕ
  begins : List String
  ends : List String
  finalState : RouterState

/-- Embeds `processQuery` from model selection onwards (lines 94-251 of
the service).  Walkthrough of the source paths:
select → cost control → `recordModelUseStart` → call; on success,
`recordModelUseEnd` with a stats sample and an ok reply (wall-clock
durations are not modelled, the sample's `responseTime` is 0); on a thrown
call, `getBackupModel`, and if none, the `MODEL_UNAVAILABLE` error reaches
the outer catch with no `recordModelUseEnd`; if a backup exists,
`recordModelUseStart(backup)` and a second call, after which the source
assigns `finalModelInfo = backupModel` — but `finalModelInfo` is declared
`const` (line 101), so JavaScript raises
`TypeError: Assignment to constant variable`, which the outer catch turns
into an internal error reply, again with no `recordModelUseEnd`. -/
def processQueryDispatch (s : RouterState) (score : ℚ) (m : Metadata)
    (adapter : ℕ → CallOutcome) : DispatchResult :=
  match selectModelByComplexity s score m with
  | .error e => ⟨.error (.gateway e), 0, [], [], s⟩
  | .ok info =>
    match applyCostControlStrategy s info m with
    | .error e => ⟨.error (.gateway e), 0, [], [], s⟩
    | .ok final =>
      let s1 := recordModelUseStart s final.provider
      match adapter 0 with
      | .success text cost =>
        let actualCost : Option ℚ :=
          match cost with
          | some c => if c = 0 then final.estimatedCost else some c
          | none => final.estimatedCost
        let s2 := recordModelUseEnd s1 final.provider
          (some ⟨0, true, 1 / jsOrQ actualCost (1/1000)⟩)
        ⟨.ok ⟨text, final.provider⟩, 1, [final.provider], [final.provider], s2⟩
      | .failure =>
        match getBackupModel s1 final.provider final.modelType m with
        | none => ⟨.error (.gateway .modelUnavailable), 1, [final.provider], [], s1⟩
        | some backup =>
          let s2 := recordModelUseStart s1 backup.provider
          match adapter 1 with
          | .success _ _ =>
            ⟨.error .constAssignment, 2, [final.provider, backup.provider], [], s2⟩
          | .failure =>
            ⟨.error .adapterError, 2, [final.provider, backup.provider], [], s2⟩

/-- The `openai` provider of the repository's error-handling test
configuration (`test/integration/error.test.js`). -/
def cfgTestOpenai : ProviderConfig :=
  ⟨"online", some ["remote"], some 10, some (1/50), some (1/10), none⟩

/-- The `anthropic` provider of the same test configuration. -/
def cfgTestAnthropic : ProviderConfig :=
  ⟨"online", some ["hybrid", "remote"], some 5, some (3/100), some (3/20), none⟩

/-- The `local` provider of the same test configuration. -/
def cfgTestLocal : ProviderConfig :=
  ⟨"online", some ["local"], some 20, some (1/1000), some (1/100), none⟩

/-- Fresh router state over the three test providers. -/
def errorTestState : RouterState :=
  ⟨3/10, 7/10,
    [("openai", cfgTestOpenai), ("anthropic", cfgTestAnthropic), ("local", cfgTestLocal)],
    fun _ => 0, fun _ => none⟩

/-- Adapter oracle of the fallback test: the primary call throws once, the
second call returns a backup response. -/
def fallbackAdapter : ℕ → CallOutcome :=
  fun i => if i = 0 then .failure else .success "Backup model response from local" (some (3/100))

/-- The decision the router produces on `errorTestState` at score `0.5`:
the only hybrid provider, `anthropic`. -/
def anthropicDecision : RoutingDecision :=
  { provider := "anthropic", modelType := "hybrid", modelConfig := cfgTestAnthropic,
    estimatedCost := some (estimateCost cfgTestAnthropic (1/2) {}) }

/-- The backup decision for a failed `anthropic` call: no other hybrid
provider exists, so the chain falls back to the `local` type. -/
def localBackupDecision : RoutingDecision :=
  { provider := "local", modelType := "local", modelConfig := cfgTestLocal, isBackup := true }

/-- The dispatch of the fallback test run. -/
def fallbackRun : DispatchResult :=
  processQueryDispatch errorTestState (1/2) {} fallbackAdapter

/-- Configuration of the single provider `solo`, supporting only the
hybrid type. -/
def cfgSolo : ProviderConfig :=
  ⟨"online", some ["hybrid"], some 5, some (1/100), some (1/10), none⟩

/-- Router state with `solo` as the only provider. -/
def soloState : RouterState :=
  ⟨3/10, 7/10, [("solo", cfgSolo)], fun _ => 0, fun _ => none⟩

/-- Adapter oracle whose every call throws. -/
def failingAdapter : ℕ → CallOutcome :=
  fun _ => .failure

/-- Adapter oracle whose every call succeeds. -/
def succeedingAdapter : ℕ → CallOutcome :=
  fun _ => .success "Mock response from solo model" (some (1/20))

/-- The decision the router produces on `soloState` at score `0.5`. -/
def soloDecision : RoutingDecision :=
  { provider := "solo", modelType := "hybrid", modelConfig := cfgSolo,
    estimatedCost := some (estimateCost cfgSolo (1/2) {}) }

/-- The dispatch in which the only adapter call fails. -/
def soloFailRun : DispatchResult :=
  processQueryDispatch soloState (1/2) {} failingAdapter

/-- The dispatch in which the adapter call succeeds. -/
def soloOkRun : DispatchResult :=
  processQueryDispatch soloState (1/2) {} succeedingAdapter

/-- One entry of a provider's cost `history`:
`{ timestamp, cost, tokens }`. -/
structure CostEvent where
  timestamp : ℤ
  cost : ℚ
  tokens : ℕ
  deriving Repr, DecidableEq

/-- Entry of the `metrics.costs` map maintained by `recordCost`:
`{ totalCost, totalTokens, history }`. -/
structure CostMetrics where
  totalCost : ℚ
  totalTokens : ℕ
  history : List CostEvent
  deriving Repr, DecidableEq

/-- JavaScript `Map.set` on an association list in insertion order:
update in place when the key exists, append otherwise. -/
def mapSetCost (st : List (String × CostMetrics)) (k : String) (v : CostMetrics) :
    List (String × CostMetrics) :=
  if st.any (fun kv => kv.1 == k) then
    st.map (fun kv => if kv.1 = k then (k, v) else kv)
  else st ++ [(k, v)]

/-- JavaScript `map.get(modelId) || { totalCost: 0, totalTokens: 0,
history: [] }`. -/
def mapGetCost (st : List (String × CostMetrics)) (k : String) : CostMetrics :=
  ((st.find? (fun kv => kv.1 == k)).map Prod.snd).getD ⟨0, 0, []⟩

/-- Embeds `MetricsCollector.recordCost(modelId, cost, tokens)` at time
`now`. -/
def recordCost (st : List (String × CostMetrics)) (now : ℤ) (modelId : String)
    (cost : ℚ) (tokens : ℕ) : List (String × CostMetrics) :=
  let cur := mapGetCost st modelId
  mapSetCost st modelId
    ⟨cur.totalCost + cost, cur.totalTokens + tokens, cur.history ++ [⟨now, cost, tokens⟩]⟩

/-- One element of the `costs` array of
`MetricsCollector.getMetricsSummary()`: `{ modelId, totalCost,
totalTokens }` — the summary drops the `history` field. -/
structure CostSummaryEntry where
  modelId : String
  totalCost : ℚ
  totalTokens : ℕ
  deriving Repr, DecidableEq

/-- Embeds the `costs` portion of `getMetricsSummary()`. -/
def summaryCosts (st : List (String × CostMetrics)) : List CostSummaryEntry :=
  st.map (fun kv => ⟨kv.1, kv.2.totalCost, kv.2.totalTokens⟩)

/-- What `AlertManager.checkCostMetrics` sees of each cost entry through
the dynamic property access `metrics.history`: `none` models a JavaScript
`undefined` (the property is missing). -/
structure CostCheckEntry where
  history : Option (List CostEvent)
  deriving Repr, DecidableEq

/-- The view of a summary entry as a cost-check input: a
`CostSummaryEntry` has no `history` property, so the access yields
`undefined`. -/
def summaryAsCheckEntry (_e : CostSummaryEntry) : CostCheckEntry :=
  ⟨none⟩

/-- The view of a raw `metrics.costs` map entry as a cost-check input:
here `history` is present. -/
def rawAsCheckEntry (m : CostMetrics) : CostCheckEntry :=
  ⟨some m.history⟩

/-- A thrown JavaScript runtime error (here:
`TypeError: Cannot read properties of undefined (reading 'filter')` when
`metrics.history` is `undefined`). -/
inductive JsRuntimeError where
  | typeError
  deriving Repr, DecidableEq

/-- An alert generated by `AlertManager.generateAlert`: its `type` and
`severity` fields (id, message, data and timestamp omitted). -/
structure Alert where
  kind : String
  severity : String
  deriving Repr, DecidableEq

/-- The accumulation loop of `checkCostMetrics`: for each entry, filter
its `history` to the trailing 24-hour and 30-day windows and add the cost
sums to the running totals; accessing a missing `history` throws. -/
def checkCostTotals (now : ℤ) (acc : ℚ × ℚ) :
    List CostCheckEntry → Except JsRuntimeError (ℚ × ℚ)
  | [] => .ok acc
  | e :: es =>
    match e.history with
    | none => .error .typeError
    | some h =>
      checkCostTotals now
        (acc.1 + ((h.filter (fun ev => decide (ev.timestamp > now - 24 * 60 * 60 * 1000))).map
            CostEvent.cost).sum,
         acc.2 + ((h.filter (fun ev => decide (ev.timestamp > now - 30 * 24 * 60 * 60 * 1000))).map
            CostEvent.cost).sum) es

/-- Embeds `AlertManager.checkCostMetrics(costs)` with thresholds
`thresholds.cost.daily` and `thresholds.cost.monthly`: emit a high
`cost_daily` alert when the 24-hour total exceeds the daily threshold and
a critical `cost_monthly` alert when the 30-day total exceeds the monthly
threshold. -/
def checkCostMetrics (tDaily tMonthly : ℚ) (now : ℤ) (costs : List CostCheckEntry) :
    Except JsRuntimeError (List Alert) :=
  match checkCostTotals now (0, 0) costs with
  | .error e => .error e
  | .ok (dailyTotal, monthlyTotal) =>
    .ok ((if dailyTotal > tDaily then [⟨"cost_daily", "high"⟩] else []) ++
         (if monthlyTotal > tMonthly then [⟨"cost_monthly", "critical"⟩] else []))

/-- The cost-check portion of `MonitoringService.runHealthChecks(metrics)`
over the current metrics summary: `checkCostMetrics(metrics.costs)` runs
inside a `try/catch` that only logs, so a thrown error yields no
alerts. -/
def runHealthChecksCostAlerts (tDaily tMonthly : ℚ) (now : ℤ)
    (st : List (String × CostMetrics)) : List Alert :=
  match checkCostMetrics tDaily tMonthly now ((summaryCosts st).map summaryAsCheckEntry) with
  | .error _ => []
  | .ok alerts => alerts

/-- The metrics state after `k` calls of `recordCost('openai', 2, 1000)`
at time `1000000`, as in the repository's cost-alert test. -/
def recordCostTimes : ℕ → List (String × CostMetrics)
  | 0 => []
  | k + 1 => recordCost (recordCostTimes k) 1000000 "openai" 2 1000

/-! ## Theorems -/

/-- A run-split never returns the empty list of chunks. -/
theorem jsSplitOn_ne_nil (p : Char → Bool) : (q : List Char) → jsSplitOn p q ≠ []
  | [] => by simp [jsSplitOn]
  | [c] => by by_cases hc : p c <;> simp [jsSplitOn, hc]
  | c :: c2 :: cs => by
    have ih := jsSplitOn_ne_nil p (c2 :: cs)
    by_cases hc : p c <;> by_cases hc2 : p c2 <;>
      simp [jsSplitOn, hc, hc2, consHead] <;>
      cases h : jsSplitOn p (c2 :: cs) <;> simp_all

/-- Chunks of a run-split are non-empty away from the borders: if the last
character is not a separator then every chunk after the first is non-empty,
and if the first character is also not a separator then every chunk is
non-empty. -/
theorem jsSplitOn_chunk_ne_nil (p : Char → Bool) :
    (q : List Char) → (∀ c, q.getLast? = some c → p c = false) →
    (∀ w ∈ (jsSplitOn p q).tail, w ≠ []) ∧
      (∀ c, q.head? = some c → p c = false → ∀ w ∈ jsSplitOn p q, w ≠ [])
  | [], _ => by simp [jsSplitOn]
  | [c], h => by
    have hc : p c = false := h c rfl
    simp [jsSplitOn, hc]
  | c :: c2 :: cs, h => by
    have ih := jsSplitOn_chunk_ne_nil p (c2 :: cs) (by
      intro x hx
      exact h x (by rw [List.getLast?_cons_cons]; exact hx))
    by_cases hc : p c
    · by_cases hc2 : p c2
      · refine ⟨?_, ?_⟩
        · simpa [jsSplitOn, hc, hc2] using ih.1
        · intro x hx hpx
          simp at hx
          rw [← hx] at hpx
          rw [hpx] at hc
          exact absurd hc (by simp)
      · have hall : ∀ w ∈ jsSplitOn p (c2 :: cs), w ≠ [] := ih.2 c2 rfl (by simpa using hc2)
        refine ⟨?_, ?_⟩
        · simpa [jsSplitOn, hc, hc2] using hall
        · intro x hx hpx
          simp at hx
          rw [← hx] at hpx
          rw [hpx] at hc
          exact absurd hc (by simp)
    · have hsplit : jsSplitOn p (c :: c2 :: cs) = consHead c (jsSplitOn p (c2 :: cs)) := by
        simp [jsSplitOn, hc]
      rcases hrec : jsSplitOn p (c2 :: cs) with _ | ⟨r, rs⟩
      · exact absurd hrec (jsSplitOn_ne_nil p (c2 :: cs))
      · have htail : ∀ w ∈ rs, w ≠ [] := by
          intro w hw
          exact ih.1 w (by rw [hrec]; simpa using hw)
        constructor
        · intro w hw
          rw [hsplit, hrec] at hw
          simp [consHead] at hw
          exact htail w hw
        · intro x hx hpx w hw
          rw [hsplit, hrec] at hw
          simp [consHead] at hw
          rcases hw with hw | hw
          · rw [hw]; simp
          · exact htail w hw

/-- When the query neither starts nor ends with a whitespace character,
the chunk list produced by `query.split(/\s+/)` is exactly the list of
whitespace-separated tokens. -/
theorem queryWords_eq_wsTokens (q : List Char) (hne : q ≠ [])
    (hhead : ∀ c, q.head? = some c → isJsWs c = false)
    (hlast : ∀ c, q.getLast? = some c → isJsWs c = false) :
    wsTokens q = queryWords q := by
  rcases hq : q with _ | ⟨c, cs⟩
  · exact absurd hq hne
  · rw [← hq]
    have hall : ∀ w ∈ jsSplitOn isJsWs q, w ≠ [] := by
      refine (jsSplitOn_chunk_ne_nil isJsWs q hlast).2 c ?_ ?_
      · rw [hq]; rfl
      · exact hhead c (by rw [hq]; rfl)
    unfold wsTokens
    refine List.filter_eq_self.mpr ?_
    intro w hw
    simpa using hall w hw

/-- Vocabulary complexity is always in `[0, 1]`. -/
theorem vocabularyComplexity_mem_unit (q : List Char) :
    0 ≤ vocabularyComplexity q ∧ vocabularyComplexity q ≤ 1 := by
  unfold vocabularyComplexity
  have h1 : (0 : ℚ) ≤ min ((wordCount q : ℚ) / 100) 1 :=
    le_min (by positivity) (by norm_num)
  have h2 : (0 : ℚ) ≤ min (avgWordLength q / 10) 1 := by
    refine le_min ?_ (by norm_num)
    have : (0 : ℚ) ≤ avgWordLength q := by
      unfold avgWordLength
      positivity
    positivity
  have h3 : min ((wordCount q : ℚ) / 100) 1 ≤ 1 := min_le_right _ _
  have h4 : min (avgWordLength q / 10) 1 ≤ 1 := min_le_right _ _
  constructor <;> nlinarith

/-- Grammar complexity is always in `[0, 1]`. -/
theorem grammarComplexity_mem_unit (q : List Char) :
    0 ≤ grammarComplexity q ∧ grammarComplexity q ≤ 1 := by
  unfold grammarComplexity
  constructor
  · refine le_min ?_ (by norm_num)
    have : (0 : ℚ) ≤ avgSentenceLength q := by
      unfold avgSentenceLength
      positivity
    positivity
  · exact min_le_right _ _

/-- Claim C6 (amended): for every non-empty query the score computed by
`evaluateQueryComplexity` lies in `[0, 1]`, and whenever the query neither
starts nor ends with a whitespace character it equals the specified formula
`0.6·(0.5·min(W/100,1) + 0.5·min(avg_word_len/10,1)) + 0.4·min((W/S)/20,1)`
taken over the whitespace-separated tokens (`W` tokens of mean length
`avg_word_len`) and the sentence count `S`.  (For queries with a leading or
trailing whitespace character the source counts an extra empty word, see the
counterexample.) -/
theorem evaluateQueryComplexity_formula (q : List Char) (hq : q ≠ []) :
    (0 ≤ (evaluateQueryComplexity q).complexityScore ∧
      (evaluateQueryComplexity q).complexityScore ≤ 1) ∧
    ((∀ c, q.head? = some c → isJsWs c = false) →
      (∀ c, q.getLast? = some c → isJsWs c = false) →
      (evaluateQueryComplexity q).complexityScore = specTokenScore q) := by
  constructor
  · have hv := vocabularyComplexity_mem_unit q
    have hg := grammarComplexity_mem_unit q
    show 0 ≤ complexityScore q ∧ complexityScore q ≤ 1
    unfold complexityScore
    constructor <;> nlinarith [hv.1, hv.2, hg.1, hg.2]
  · intro hhead hlast
    have htok := queryWords_eq_wsTokens q hq hhead hlast
    show complexityScore q = specTokenScore q
    unfold specTokenScore
    rw [htok]
    unfold complexityScore vocabularyComplexity grammarComplexity avgWordLength
      avgSentenceLength wordCount totalWordLength
    ring

/-- Witness for C6: the query `"ab cd."` is non-empty, has no boundary
whitespace, and the theorem instantiates on it. -/
theorem evaluateQueryComplexity_formula_witness :
    (0 ≤ (evaluateQueryComplexity ("ab cd.".toList)).complexityScore ∧
      (evaluateQueryComplexity ("ab cd.".toList)).complexityScore ≤ 1) ∧
    (evaluateQueryComplexity ("ab cd.".toList)).complexityScore =
      specTokenScore ("ab cd.".toList) := by
  have h := evaluateQueryComplexity_formula ("ab cd.".toList) (by decide)
  exact ⟨h.1, h.2 (by decide) (by decide)⟩

/-- Counterexample for C6 as frozen: on the non-empty query `" a"` (one
letter preceded by a space) the source's word array is `["", "a"]`, so its
score `61/1000` differs from the claimed token-based formula value
`53/1000`. -/
theorem complexityScore_leading_ws_counterexample :
    " a".toList ≠ [] ∧
    (evaluateQueryComplexity (" a".toList)).complexityScore = 61/1000 ∧
    specTokenScore (" a".toList) = 53/1000 ∧
    (evaluateQueryComplexity (" a".toList)).complexityScore ≠
      specTokenScore (" a".toList) := by
  have hcode : complexityScore (" a".toList) = 61/1000 := by
    have hw : wordCount (" a".toList) = 2 := by decide
    have ht : totalWordLength (" a".toList) = 1 := by decide
    have hs : sentenceCount (" a".toList) = 1 := by decide
    rw [complexityScore, vocabularyComplexity, grammarComplexity, avgWordLength,
      avgSentenceLength, hw, ht, hs]
    norm_num [min_def]
  have hspec : specTokenScore (" a".toList) = 53/1000 := by
    have h1 : (wsTokens (" a".toList)).length = 1 := by decide
    have h2 : ((wsTokens (" a".toList)).map List.length).sum = 1 := by decide
    have hs : sentenceCount (" a".toList) = 1 := by decide
    rw [specTokenScore, h1, h2, hs]
    norm_num [min_def]
  refine ⟨by decide, hcode, hspec, ?_⟩
  show complexityScore (" a".toList) ≠ specTokenScore (" a".toList)
  rw [hcode, hspec]
  norm_num

/-- Claim C7 (amended): the factor list contains the high-vocabulary tag
iff `vocabulary_complexity > 0.6`, the complex-grammar tag iff
`grammar_complexity > 0.6`, and the long-query tag iff the length of the
`query.split(/\s+/)` array exceeds 100; the list is always a sublist of
the three tags in their stable order and is empty when no condition
fires.  The word-array length equals the whitespace-token count `W` of
the original claim whenever the query neither begins nor ends with a
whitespace character (last conjunct); on boundary-whitespace queries the
source counts the extra empty chunk, see the counterexample.  (The source
emits the Chinese literals that the specification names
`high_vocabulary_complexity`, `complex_grammar` and `long_query`.) -/
theorem complexityFactors_tags (q : List Char) :
    ((highVocabularyTag ∈ (evaluateQueryComplexity q).complexityFactors ↔
      vocabularyComplexity q > 6/10) ∧
    (complexGrammarTag ∈ (evaluateQueryComplexity q).complexityFactors ↔
      grammarComplexity q > 6/10) ∧
    (longQueryTag ∈ (evaluateQueryComplexity q).complexityFactors ↔
      wordCount q > 100) ∧
    ((evaluateQueryComplexity q).complexityFactors).Sublist
      [highVocabularyTag, complexGrammarTag, longQueryTag] ∧
    (¬ vocabularyComplexity q > 6/10 → ¬ grammarComplexity q > 6/10 →
      ¬ wordCount q > 100 → (evaluateQueryComplexity q).complexityFactors = [])) ∧
    (q ≠ [] → (∀ c, q.head? = some c → isJsWs c = false) →
      (∀ c, q.getLast? = some c → isJsWs c = false) →
      wordCount q = (wsTokens q).length) := by
  constructor
  · have hne1 : highVocabularyTag ≠ complexGrammarTag := by decide
    have hne2 : highVocabularyTag ≠ longQueryTag := by decide
    have hne3 : complexGrammarTag ≠ longQueryTag := by decide
    have he : (evaluateQueryComplexity q).complexityFactors = complexityFactors q := rfl
    rw [he]
    unfold complexityFactors
    by_cases h1 : vocabularyComplexity q > 6/10 <;>
      by_cases h2 : grammarComplexity q > 6/10 <;>
        by_cases h3 : wordCount q > 100 <;>
          simp [h1, h2, h3, hne1, hne2, hne3, hne1.symm, hne2.symm, hne3.symm]
  · intro hne hh hl
    show (queryWords q).length = (wsTokens q).length
    exact (congrArg List.length (queryWords_eq_wsTokens q hne hh hl)).symm

/-- Witness for C7: on the query `"hi"` no factor condition fires and the
factor list is empty, and the word-array length agrees with the token
count (1) since the query has no boundary whitespace. -/
theorem complexityFactors_tags_witness :
    (evaluateQueryComplexity ("hi".toList)).complexityFactors = [] ∧
    wordCount ("hi".toList) = (wsTokens ("hi".toList)).length := by
  refine ⟨?_, (complexityFactors_tags ("hi".toList)).2 (by decide) (by decide) (by decide)⟩
  have h := (complexityFactors_tags ("hi".toList)).1.2.2.2.2
  refine h ?_ ?_ ?_
  · have hw : wordCount ("hi".toList) = 1 := by decide
    have ht : totalWordLength ("hi".toList) = 2 := by decide
    rw [vocabularyComplexity, avgWordLength, hw, ht]
    norm_num [min_def]
  · have hw : wordCount ("hi".toList) = 1 := by decide
    have hs : sentenceCount ("hi".toList) = 1 := by decide
    rw [grammarComplexity, avgSentenceLength, hw, hs]
    norm_num [min_def]
  · decide

/-- Counterexample for C7 as frozen: the claim emits the long-query tag
iff the whitespace-token count `W` exceeds 100, but the source tests the
length of the `query.split(/\s+/)` array, which also counts the empty
boundary chunks.  `hundredTokenQuery` has exactly 100 whitespace-separated
tokens — by the claim the tag must be absent — yet its trailing space
makes the source's word array 101 entries long and the tag is emitted. -/
theorem complexityFactors_long_query_counterexample :
    (wsTokens hundredTokenQuery).length = 100 ∧
    ¬ (wsTokens hundredTokenQuery).length > 100 ∧
    wordCount hundredTokenQuery = 101 ∧
    longQueryTag ∈ (evaluateQueryComplexity hundredTokenQuery).complexityFactors := by
  have hw : wordCount hundredTokenQuery = 101 := by decide
  refine ⟨by decide, by decide, hw, ?_⟩
  have h3 : wordCount hundredTokenQuery > 100 := by rw [hw]; norm_num
  show longQueryTag ∈ complexityFactors hundredTokenQuery
  unfold complexityFactors
  rw [if_pos h3]
  exact List.mem_append_right _ (List.mem_singleton.mpr rfl)

/-- The best-pick left fold returns the seed or a member of the list. -/
theorem foldl_best_mem (s : RouterState) :
    ∀ (xs : List ProviderEntry) (b : ProviderEntry × ℚ),
      ((xs.foldl (fun best pr =>
          if providerScore s pr > best.2 then (pr, providerScore s pr) else best) b).1 = b.1) ∨
      ((xs.foldl (fun best pr =>
          if providerScore s pr > best.2 then (pr, providerScore s pr) else best) b).1 ∈ xs) := by
  intro xs
  induction xs with
  | nil => intro b; left; rfl
  | cons x xs ih =>
    intro b
    rcases ih (if providerScore s x > b.2 then (x, providerScore s x) else b) with h | h
    · by_cases hc : providerScore s x > b.2
      · right
        rw [List.foldl_cons]
        simp only [if_pos hc] at h ⊢
        rw [h]
        exact List.mem_cons_self x xs
      · left
        rw [List.foldl_cons]
        simp only [if_neg hc] at h ⊢
        exact h
    · right
      rw [List.foldl_cons]
      exact List.mem_cons_of_mem x h

/-- A provider returned by `selectBestProvider` is one of the candidates. -/
theorem selectBestProvider_mem (s : RouterState) (l : List ProviderEntry) (pr : ProviderEntry)
    (h : selectBestProvider s l = some pr) : pr ∈ l := by
  match l with
  | [] => simp [selectBestProvider] at h
  | [p] =>
    simp [selectBestProvider] at h
    simp [h]
  | p :: q :: ps =>
    simp only [selectBestProvider, Option.some.injEq] at h
    rcases foldl_best_mem s (q :: ps) (p, providerScore s p) with hm | hm
    · rw [h] at hm
      rw [hm]
      exact List.mem_cons_self p (q :: ps)
    · rw [h] at hm
      exact List.mem_cons_of_mem p hm

/-- Band characterization of the threshold ladder, shared by several
proofs below. -/
theorem selectModelTypeFor_cases (lo hi score : ℚ) (h : lo ≤ hi) :
    (selectModelTypeFor lo hi score = "local" ↔ score < lo) ∧
    (selectModelTypeFor lo hi score = "hybrid" ↔ lo ≤ score ∧ score < hi) ∧
    (selectModelTypeFor lo hi score = "remote" ↔ hi ≤ score) ∧
    (lo < hi → selectModelTypeFor lo hi lo = "hybrid") ∧
    selectModelTypeFor lo hi hi = "remote" := by
  unfold selectModelTypeFor
  refine ⟨?_, ?_, ?_, ?_, ?_⟩
  · split_ifs with h1 h2 <;> simp_all
  · split_ifs with h1 h2 <;> simp_all <;> intro h3 <;> linarith
  · split_ifs with h1 h2 <;> simp_all <;> linarith
  · intro hlt
    rw [if_neg (lt_irrefl lo), if_pos hlt]
  · rw [if_neg (not_lt.mpr h), if_neg (lt_irrefl hi)]

/-- Claim C5 (amended): for thresholds `lo ≤ hi` the router selects
`local` iff `score < lo`, `hybrid` iff `lo ≤ score < hi`, and `remote`
iff `score ≥ hi`; when `lo < hi` (as with the defaults 0.3 and 0.7) a
score of exactly `lo` yields `hybrid`, and a score of exactly `hi` always
yields `remote`. -/
theorem selectModelTypeFor_bands (lo hi score : ℚ) (h : lo ≤ hi) :
    (selectModelTypeFor lo hi score = "local" ↔ score < lo) ∧
    (selectModelTypeFor lo hi score = "hybrid" ↔ lo ≤ score ∧ score < hi) ∧
    (selectModelTypeFor lo hi score = "remote" ↔ hi ≤ score) ∧
    (lo < hi → selectModelTypeFor lo hi lo = "hybrid") ∧
    selectModelTypeFor lo hi hi = "remote" :=
  selectModelTypeFor_cases lo hi score h

/-- Witness for C5: on the default thresholds `0.3 < 0.7`, score `0.2`
routes to `local`, the boundary `0.3` routes to `hybrid` and the boundary
`0.7` routes to `remote`. -/
theorem selectModelTypeFor_bands_witness :
    selectModelTypeFor (3/10) (7/10) (1/5) = "local" ∧
    selectModelTypeFor (3/10) (7/10) (3/10) = "hybrid" ∧
    selectModelTypeFor (3/10) (7/10) (7/10) = "remote" := by
  have h := selectModelTypeFor_bands (3/10) (7/10) (1/5) (by norm_num)
  have h2 := selectModelTypeFor_bands (3/10) (7/10) (3/10) (by norm_num)
  exact ⟨h.1.mpr (by norm_num), (h2.2.2.2.1 (by norm_num)), h2.2.2.2.2⟩

/-- Counterexample for C5 as frozen: the claim quantifies over all
thresholds `lo ≤ hi` and asserts that a score equal to `lo` yields
`hybrid`; with `lo = hi = 1/2` and score `1/2` the source selects
`remote`. -/
theorem selectModelTypeFor_boundary_counterexample :
    ((1/2 : ℚ) ≤ 1/2) ∧
    selectModelTypeFor (1/2) (1/2) (1/2) = "remote" ∧
    ("remote" : String) ≠ "hybrid" := by
  refine ⟨le_refl _, ?_, by decide⟩
  unfold selectModelTypeFor
  norm_num

/-- Counterexample for C3 as frozen: `recordModelUseStart` performs no
limit check.  Starting from `inflight = max_concurrent − 1 = 1`, a begin
raises the count to the cap of 2, and the next begin — which the claim
says must fail with `MODEL_UNAVAILABLE` — also succeeds, pushing
`inflight` to 3, beyond the cap. -/
theorem recordModelUseStart_no_check_counterexample :
    jsOrNat cfgTwoSlot.maxConcurrentQueries 10 = 2 ∧
    twoSlotState.activeConnections "p" = 1 ∧
    (recordModelUseStart twoSlotState "p").activeConnections "p" = 2 ∧
    (recordModelUseStart (recordModelUseStart twoSlotState "p") "p").activeConnections "p" = 3 := by
  refine ⟨rfl, rfl, ?_, ?_⟩ <;> simp [recordModelUseStart, twoSlotState]

/-- Claim C3 (amended): the concurrency limit is enforced by the
candidate filter, not inside `recordModelUseStart`: with a single matching
provider at `inflight = max_concurrent − 1`, a dispatch can still select
it (and `recordModelUseStart` then raises `inflight` to the cap), after
which the next selection finds no candidate and raises
`MODEL_UNAVAILABLE`; `recordModelUseStart` itself increments
unconditionally. -/
theorem admission_refusal_in_filter
    (s : RouterState) (score : ℚ) (m : Metadata) (n : String) (cfg : ProviderConfig) (k : ℕ)
    (hprov : s.modelProviders = [(n, cfg)])
    (hstat : cfg.status ≠ "offline")
    (hsup : supportsModelType cfg
      (selectModelTypeFor s.lowComplexityThreshold s.highComplexityThreshold score) = true)
    (hk : jsOrNat cfg.maxConcurrentQueries 10 = k)
    (hconn : s.activeConnections n = k - 1)
    (hkpos : 0 < k) :
    (∃ d, selectModelByComplexity s score m = .ok d ∧ d.provider = n) ∧
    (recordModelUseStart s n).activeConnections n = k ∧
    selectModelByComplexity (recordModelUseStart s n) score m = .error .modelUnavailable := by
  have hb : (cfg.status != "offline") = true := by simp [hstat]
  have havail : getAvailableProviders s
      (selectModelTypeFor s.lowComplexityThreshold s.highComplexityThreshold score) m =
      [⟨n, cfg⟩] := by
    simp only [getAvailableProviders, hprov, List.filter_cons, List.filter_nil]
    rw [hsup, hconn, hk, hb]
    have hlt : k - 1 < k := by omega
    simp [hlt]
  have hstart : (recordModelUseStart s n).activeConnections n = k := by
    simp [recordModelUseStart]
    omega
  refine ⟨?_, hstart, ?_⟩
  · rw [selectModelByComplexity, havail]
    exact ⟨_, rfl, rfl⟩
  · have hprov2 : (recordModelUseStart s n).modelProviders = [(n, cfg)] := hprov
    have hlo : (recordModelUseStart s n).lowComplexityThreshold = s.lowComplexityThreshold := rfl
    have hhi : (recordModelUseStart s n).highComplexityThreshold = s.highComplexityThreshold := rfl
    have havail2 : getAvailableProviders (recordModelUseStart s n)
        (selectModelTypeFor s.lowComplexityThreshold s.highComplexityThreshold score) m = [] := by
      simp only [getAvailableProviders, hprov2, List.filter_cons, List.filter_nil]
      rw [hsup, hstart, hk, hb]
      simp
    rw [selectModelByComplexity, hlo, hhi, havail2]

/-- Witness for C3: the amended theorem instantiated on the two-slot
state. -/
theorem admission_refusal_in_filter_witness :
    (∃ d, selectModelByComplexity twoSlotState (1/2) {} = .ok d ∧ d.provider = "p") ∧
    (recordModelUseStart twoSlotState "p").activeConnections "p" = 2 ∧
    selectModelByComplexity (recordModelUseStart twoSlotState "p") (1/2) {} =
      .error .modelUnavailable := by
  refine admission_refusal_in_filter twoSlotState (1/2) {} "p" cfgTwoSlot 2 rfl
    (by decide) ?_ rfl rfl (by decide)
  have ht : selectModelTypeFor twoSlotState.lowComplexityThreshold
      twoSlotState.highComplexityThreshold (1/2) = "hybrid" := by
    have h := selectModelTypeFor_cases (3/10) (7/10) (1/2) (by norm_num)
    exact h.2.1.mpr (by norm_num)
  rw [ht]
  decide

/-- Claim C10: a provider whose configuration omits `supportedModelTypes`
is treated as supporting every model type, and the candidate filter keeps
it whenever its status is not `offline` and its active-connection count is
below its concurrency cap; the cap itself defaults to 10 when
`maxConcurrentQueries` is absent. -/
theorem getAvailableProviders_default_support
    (s : RouterState) (t : String) (m : Metadata) (n : String) (cfg : ProviderConfig)
    (hmem : (n, cfg) ∈ s.modelProviders)
    (hsup : cfg.supportedModelTypes = none)
    (hstat : cfg.status ≠ "offline")
    (hconn : s.activeConnections n < jsOrNat cfg.maxConcurrentQueries 10) :
    (⟨n, cfg⟩ : ProviderEntry) ∈ getAvailableProviders s t m ∧
    (cfg.maxConcurrentQueries = none → jsOrNat cfg.maxConcurrentQueries 10 = 10) := by
  constructor
  · unfold getAvailableProviders
    refine List.mem_map.mpr ⟨(n, cfg), List.mem_filter.mpr ⟨hmem, ?_⟩, rfl⟩
    simp [supportsModelType, hsup, hstat, hconn]
  · intro h
    simp [jsOrNat, h]

/-- Witness for C10: the untyped provider is kept for the `remote` type
with 3 < 10 active connections, and its cap defaults to 10. -/
theorem getAvailableProviders_default_support_witness :
    (⟨"u", cfgUntyped⟩ : ProviderEntry) ∈ getAvailableProviders untypedState "remote" {} ∧
    jsOrNat cfgUntyped.maxConcurrentQueries 10 = 10 := by
  have h := getAvailableProviders_default_support untypedState "remote" {} "u" cfgUntyped
    (List.mem_singleton.mpr rfl) rfl (by decide) (by decide)
  exact ⟨h.1, h.2 rfl⟩

/-- Claim C8: if the request budget parses to a number `B` at least the
effective per-query cost cap (`maxCostPerQuery || 0.1`) of every available
provider, then `applyCostControlStrategy` returns the routing decision of
`selectModelByComplexity` unchanged: the estimated cost is clamped to the
chosen provider's cap, which is within budget, so no downgrade and no
`COST_LIMIT_EXCEEDED` can occur. -/
theorem applyCostControlStrategy_ample_budget
    (s : RouterState) (score : ℚ) (m : Metadata) (B : ℚ) (info : RoutingDecision)
    (hb : m.budget = some B)
    (hsel : selectModelByComplexity s score m = .ok info)
    (hmax : ∀ pr ∈ getAvailableProviders s
        (selectModelTypeFor s.lowComplexityThreshold s.highComplexityThreshold score) m,
      jsOrQ pr.config.maxCostPerQuery (1/10) ≤ B) :
    applyCostControlStrategy s info m = .ok info := by
  rw [selectModelByComplexity] at hsel
  split at hsel
  · exact absurd hsel (by simp)
  · rename_i p ps havail
    split at hsel
    · exact absurd hsel (by simp)
    · rename_i sel hbest
      have hinfo : info =
          { provider := sel.name
            modelType := selectModelTypeFor s.lowComplexityThreshold s.highComplexityThreshold score
            modelConfig := sel.config
            estimatedCost := some (estimateCost sel.config score m) } :=
        (Except.ok.inj hsel).symm
      have hmem : sel ∈ p :: ps := selectBestProvider_mem s (p :: ps) sel hbest
      have hcap : jsOrQ sel.config.maxCostPerQuery (1/10) ≤ B := by
        refine hmax sel ?_
        rw [havail]
        exact hmem
      have hle : estimateCost sel.config score m ≤ B := by
        refine le_trans ?_ hcap
        unfold estimateCost
        exact min_le_right _ _
      rw [hinfo]
      rw [applyCostControlStrategy]
      simp only [hb]
      rw [if_neg (not_lt.mpr hle)]

/-- Witness for C8: with budget 1 and a single provider capped at cost
`0.1`, the decision passes cost control unchanged. -/
theorem applyCostControlStrategy_ample_budget_witness :
    selectModelByComplexity ampleState (9/10) ampleMeta = .ok ampleDecision ∧
    applyCostControlStrategy ampleState ampleDecision ampleMeta = .ok ampleDecision := by
  have htype : selectModelTypeFor ampleState.lowComplexityThreshold
      ampleState.highComplexityThreshold (9/10) = "remote" := by
    have h := selectModelTypeFor_cases (3/10) (7/10) (9/10) (by norm_num)
    exact h.2.2.1.mpr (by norm_num)
  have havail : getAvailableProviders ampleState
      (selectModelTypeFor ampleState.lowComplexityThreshold
        ampleState.highComplexityThreshold (9/10)) ampleMeta = [⟨"r", cfgAmple⟩] := by
    rw [htype]
    rfl
  have hsel : selectModelByComplexity ampleState (9/10) ampleMeta = .ok ampleDecision := by
    rw [selectModelByComplexity, havail]
    show Except.ok _ = _
    have hest : estimateCost cfgAmple (9/10) ampleMeta = 19/1000 := by
      unfold estimateCost cfgAmple ampleMeta
      norm_num [jsOrQ, min_def]
    simp only [selectBestProvider]
    rw [ampleDecision, htype, hest]
  refine ⟨hsel, ?_⟩
  refine applyCostControlStrategy_ample_budget ampleState (9/10) ampleMeta 1 ampleDecision rfl hsel ?_
  intro pr hpr
  rw [havail] at hpr
  have : pr = ⟨"r", cfgAmple⟩ := by simpa using hpr
  rw [this]
  norm_num [jsOrQ, cfgAmple]

/-- Claim C4, evaluated at the failing input: the remote decision's cost
`0.095` exceeds the budget `0.002`, the single hybrid candidate re-costs
to `0.045` which still exceeds it, and although a local provider is
available whose re-estimated cost `0.00075` fits the budget, the source
raises `COST_LIMIT_EXCEEDED` after the one hybrid step instead of
continuing the `remote → hybrid → local` chain. -/
theorem applyCostControlStrategy_stops_after_one_step :
    selectModelByComplexity costChainState (9/10) costChainMeta = .ok costChainDecision ∧
    applyCostControlStrategy costChainState costChainDecision costChainMeta =
      .error .costLimitExceeded ∧
    getAvailableProviders costChainState "local" costChainMeta = [⟨"local1", cfgChainLocal⟩] ∧
    estimateCost cfgChainLocal (1/2) costChainMeta ≤ 1/500 := by
  have htype : selectModelTypeFor costChainState.lowComplexityThreshold
      costChainState.highComplexityThreshold (9/10) = "remote" := by
    have h := selectModelTypeFor_cases (3/10) (7/10) (9/10) (by norm_num)
    exact h.2.2.1.mpr (by norm_num)
  refine ⟨?_, ?_, rfl, ?_⟩
  · have havail : getAvailableProviders costChainState
        (selectModelTypeFor costChainState.lowComplexityThreshold
          costChainState.highComplexityThreshold (9/10)) costChainMeta =
        [⟨"remote1", cfgChainRemote⟩] := by
      rw [htype]
      rfl
    rw [selectModelByComplexity, havail]
    show Except.ok _ = _
    have hest : estimateCost cfgChainRemote (9/10) costChainMeta = 19/200 := by
      unfold estimateCost cfgChainRemote costChainMeta
      norm_num [jsOrQ, min_def]
    simp only [selectBestProvider]
    rw [costChainDecision, htype, hest]
  · have hbud : costChainMeta.budget = some (1/500) := rfl
    have hec : costChainDecision.estimatedCost = some (19/200) := rfl
    have hft : fallbackTypeOf costChainDecision.modelType = some "hybrid" := rfl
    have hhyb : getAvailableProviders costChainState "hybrid" costChainMeta =
        [⟨"hybrid1", cfgChainHybrid⟩] := rfl
    have hcheap : estimateCost cfgChainHybrid (1/2) costChainMeta = 9/200 := by
      unfold estimateCost cfgChainHybrid costChainMeta
      norm_num [jsOrQ, min_def]
    rw [applyCostControlStrategy]
    simp only [hbud, hec, hft, hhyb, selectBestProvider, hcheap]
    norm_num
  · unfold estimateCost cfgChainLocal costChainMeta
    norm_num [jsOrQ, min_def]

/-- Type selection on the test state at score `0.5` is `hybrid`. -/
theorem errorTestState_type_at_half :
    selectModelTypeFor errorTestState.lowComplexityThreshold
      errorTestState.highComplexityThreshold (1/2) = "hybrid" := by
  have h := selectModelTypeFor_cases (3/10) (7/10) (1/2) (by norm_num)
  exact h.2.1.mpr (by norm_num)

/-- Routing on the test state at score `0.5` picks `anthropic`. -/
theorem errorTestState_selects_anthropic :
    selectModelByComplexity errorTestState (1/2) {} = .ok anthropicDecision := by
  have havail : getAvailableProviders errorTestState "hybrid" ({} : Metadata) =
      [⟨"anthropic", cfgTestAnthropic⟩] := rfl
  rw [selectModelByComplexity, errorTestState_type_at_half, havail]
  rfl

/-- Claim C1, evaluated at the failing run: with the primary `anthropic`
call throwing once and the backup `local` call succeeding, the dispatcher
does find and admit the backup and calls the adapter exactly twice — but
the run then ends in an error reply (the `const` reassignment `TypeError`),
not in the successful reply carrying the backup text that the claim and
the repository's own fallback test expect. -/
theorem fallbackRun_crashes_after_backup_success :
    fallbackRun.adapterCalls = 2 ∧
    fallbackRun.begins = ["anthropic", "local"] ∧
    fallbackRun.reply = .error .constAssignment ∧
    fallbackRun.ends = [] := by
  have hcc : applyCostControlStrategy errorTestState anthropicDecision {} =
      .ok anthropicDecision := rfl
  have hbackup : getBackupModel (recordModelUseStart errorTestState "anthropic")
      "anthropic" "hybrid" ({} : Metadata) = some localBackupDecision := by
    simp [getBackupModel, getAvailableProviders, errorTestState, recordModelUseStart,
      supportsModelType, cfgTestOpenai, cfgTestAnthropic, cfgTestLocal, jsOrNat,
      fallbackTypeOf, selectBestProvider, localBackupDecision]
  have h0 : fallbackAdapter 0 = .failure := rfl
  have h1 : fallbackAdapter 1 = .success "Backup model response from local" (some (3/100)) := rfl
  have hprov : anthropicDecision.provider = "anthropic" := rfl
  have htyp : anthropicDecision.modelType = "hybrid" := rfl
  have hbprov : localBackupDecision.provider = "local" := rfl
  refine ⟨?_, ?_, ?_, ?_⟩ <;>
    simp only [fallbackRun, processQueryDispatch, errorTestState_selects_anthropic, hcc,
      hprov, htyp, h0, h1, hbackup, hbprov]

/-- Routing on the solo state at score `0.5` picks `solo`. -/
theorem soloState_selects_solo :
    selectModelByComplexity soloState (1/2) {} = .ok soloDecision := by
  have htype : selectModelTypeFor soloState.lowComplexityThreshold
      soloState.highComplexityThreshold (1/2) = "hybrid" := by
    have h := selectModelTypeFor_cases (3/10) (7/10) (1/2) (by norm_num)
    exact h.2.1.mpr (by norm_num)
  have havail : getAvailableProviders soloState "hybrid" ({} : Metadata) =
      [⟨"solo", cfgSolo⟩] := rfl
  rw [selectModelByComplexity, htype, havail]
  rfl

/-- Claim C2, evaluated at the failing input: on the successful dispatch
the admission of `solo` is released exactly once, but on the dispatch
whose adapter call fails (with no backup available) `recordModelUseEnd`
is never invoked — the admission leaks, the inflight count stays at 1 —
contradicting the claimed release-on-every-exit-path invariant. -/
theorem soloFailRun_leaks_admission :
    soloOkRun.begins = ["solo"] ∧
    soloOkRun.ends = ["solo"] ∧
    soloFailRun.begins = ["solo"] ∧
    soloFailRun.ends = [] ∧
    soloFailRun.reply = .error (.gateway .modelUnavailable) ∧
    soloFailRun.finalState.activeConnections "solo" = 1 := by
  have hcc : applyCostControlStrategy soloState soloDecision {} = .ok soloDecision := rfl
  have hbackup : getBackupModel (recordModelUseStart soloState "solo")
      "solo" "hybrid" ({} : Metadata) = none := by
    simp [getBackupModel, getAvailableProviders, soloState, recordModelUseStart,
      supportsModelType, cfgSolo, jsOrNat, fallbackTypeOf]
  have h0f : failingAdapter 0 = .failure := rfl
  have h0s : succeedingAdapter 0 = .success "Mock response from solo model" (some (1/20)) := rfl
  have hprov : soloDecision.provider = "solo" := rfl
  have htyp : soloDecision.modelType = "hybrid" := rfl
  refine ⟨?_, ?_, ?_, ?_, ?_, ?_⟩ <;>
    simp only [soloOkRun, soloFailRun, processQueryDispatch, soloState_selects_solo, hcc,
      hprov, htyp, h0f, h0s, hbackup] <;>
    simp [recordModelUseStart, soloState]

/-- Claim C9, evaluated at the failing input: after ten
`recordCost('openai', 2, 1000)` calls the trailing-24-hour total is 20 and
exceeds the daily threshold 10, and `checkCostMetrics` applied to entries
that carry the history — the shape its body expects — does produce the
high `cost_daily` alert; but the health check feeds it the
`getMetricsSummary()` cost entries, which have no `history` property, so
the check throws a `TypeError` that `runHealthChecks` swallows and no
alert is generated. -/
theorem costDailyAlert_swallowed :
    (mapGetCost (recordCostTimes 10) "openai").totalCost = 20 ∧
    checkCostMetrics 10 100 1000000
      ((recordCostTimes 10).map (fun kv => rawAsCheckEntry kv.2)) =
      .ok [⟨"cost_daily", "high"⟩] ∧
    checkCostMetrics 10 100 1000000
      ((summaryCosts (recordCostTimes 10)).map summaryAsCheckEntry) =
      .error .typeError ∧
    runHealthChecksCostAlerts 10 100 1000000 (recordCostTimes 10) = [] := by
  have hstate : recordCostTimes 10 =
      [("openai", ⟨20, 10000, List.replicate 10 ⟨1000000, 2, 1000⟩⟩)] := by
    norm_num [recordCostTimes, recordCost, mapGetCost, mapSetCost, List.replicate]
  have hsum : ∀ bound : ℤ, (∀ ev : CostEvent,
        ev ∈ List.replicate 10 (⟨1000000, 2, 1000⟩ : CostEvent) → bound < ev.timestamp) →
      (((List.replicate 10 (⟨1000000, 2, 1000⟩ : CostEvent)).filter
        (fun ev => decide (ev.timestamp > bound))).map CostEvent.cost).sum = 20 := by
    intro bound hb
    rw [List.filter_eq_self.mpr (fun ev hev => decide_eq_true (hb ev hev))]
    rw [List.map_replicate, List.sum_replicate]
    norm_num
  have hraw : checkCostMetrics 10 100 1000000
      ((recordCostTimes 10).map (fun kv => rawAsCheckEntry kv.2)) =
      .ok [⟨"cost_daily", "high"⟩] := by
    rw [hstate]
    have hday := hsum (1000000 - 24 * 60 * 60 * 1000)
      (fun ev hev => by rw [List.eq_of_mem_replicate hev]; decide)
    have hmonth := hsum (1000000 - 30 * 24 * 60 * 60 * 1000)
      (fun ev hev => by rw [List.eq_of_mem_replicate hev]; decide)
    simp only [List.map_cons, List.map_nil, checkCostMetrics, checkCostTotals,
      rawAsCheckEntry, hday, hmonth]
    norm_num
  refine ⟨by rw [hstate]; rfl, hraw, by rw [hstate]; rfl, ?_⟩
  rw [runHealthChecksCostAlerts, hstate]
  rfl

end Gateway
